import Mathlib

/-!
Verification of the replay catch-up protocol of `src/replay_broker/replaybroker.py`
(class `ReplayBroker`, built on `src/broker.py`'s `Broker`).

The embedding is shallow: each Python method becomes a Lean function over an
explicit state, exceptions become outcome parameters or `Except`, and the
external collaborators (the event store `repository`, the serialization codec)
are modelled from the spec where their code is not part of the sources.
-/

namespace ReplayBroker

/-- An event record: a `name` kind discriminator ("energy_usage", "weather", ...)
and an arrival time, the only fields the replay core reads. -/
structure Event where
  name : String
  arrival_time : Nat
deriving DecidableEq

/-- Modelled from the spec: the persistent event store (`self.repository`, an
external collaborator whose code is not in the sources). Events are kept in
insertion order; the store's natural return order is that list order. -/
structure Store where
  events : List Event
deriving DecidableEq

/-- Modelled from the spec: `latest_event() -> Watermark?` — the store
"can return the timestamp of the most-recently stored event"; the code calls
this `repository.find_latest_energy_usage()`, so it is the most recently
inserted energy-usage event, `none` when there is none. -/
def Store.find_latest_energy_usage (s : Store) : Option Event :=
  (s.events.filter (fun e => e.name == "energy_usage")).getLast?

/-- Modelled from the spec: `events_after(arrival_time)` — "all events with
arrival time strictly after a given timestamp", restricted to the energy kind
as the code's name `find_energy_after_arrival_time` says, in store order. -/
def Store.find_energy_after_arrival_time (s : Store) (t : Nat) : List Event :=
  s.events.filter (fun e => e.name == "energy_usage" && decide (t < e.arrival_time))

/-- Modelled from the spec: `all_events()` — "return all events unconditionally"
(the code's `self.get_all_events()` has no definition in the sources). -/
def Store.get_all_events (s : Store) : List Event :=
  s.events

/-- A serialized event record, as produced by the opaque codec `serialize_msg`.
The codec is an external collaborator; only the round trip matters here. -/
structure SerializedMsg where
  val : Event
deriving DecidableEq

/-- The codec's `serialize_msg`. -/
def serialize_msg (e : Event) : SerializedMsg :=
  ⟨e⟩

/-- The codec's `deserialize_msg`. -/
def deserialize_msg (m : SerializedMsg) : Event :=
  m.val

/-- The wire request union: `{"type": "replay_all"}` or
`{"type": "replay_by_timestamp", "last_event_date": <serialized watermark>}`. -/
inductive ReplayRequest where
  | replay_all
  | replay_by_timestamp (last_event_date : SerializedMsg)
deriving DecidableEq

/-- The request-building branch of `send_replay_request` (lines 78-81):
watermark `None` gives `replay_all`, otherwise `replay_by_timestamp` carrying
the serialized watermark. -/
def buildRequest (last_event_date : Option Event) : ReplayRequest :=
  match last_event_date with
  | none => .replay_all
  | some w => .replay_by_timestamp (serialize_msg w)

/-- The store query made by one iteration of `start_local_replay_server`
(lines 57-63) once the request type is inspected. -/
def serverQuery (store : Store) (req : ReplayRequest) : List Event :=
  match req with
  | .replay_by_timestamp led =>
      store.find_energy_after_arrival_time (deserialize_msg led).arrival_time
  | .replay_all => store.get_all_events

/-- One iteration of the `start_local_replay_server` loop body (lines 53-66):
an absent/empty request gets no reply; otherwise the queried events are
serialized one by one and sent back. -/
def start_local_replay_server_step (store : Store) (request : Option ReplayRequest) :
    Option (List SerializedMsg) :=
  match request with
  | none => none
  | some req => some ((serverQuery store req).map serialize_msg)

/-- Observable side effects of the client's apply path and worker. -/
inductive Effect where
  | log_energy (e : Event)
  | print_weather
  | log_warning
  | sleep (n : Nat)
deriving DecidableEq

/-- `process_replay_msg` (lines 108-114): deserialize, then dispatch on the
kind. Energy-usage events are only logged — the call
`self.repository.insert_energy_value(...)` is commented out in the source —
and weather events are only printed; no state is touched. -/
def process_replay_msg (msg : SerializedMsg) : List Effect :=
  let m := deserialize_msg msg
  if m.name = "energy_usage" then [.log_energy m]
  else if m.name = "weather" then [.print_weather]
  else []

/-- The mutable client state of `ReplayBroker` that the replay protocol
touches: the watermark `last_event_date`, the `request_in_progress` flag, the
stored upstream socket handle `remote_replay_socket` (`None` until a worker
assigns it), and the store. -/
structure ClientState where
  last_event_date : Option Event
  request_in_progress : Bool
  remote_replay_socket : Option Unit
  store : Store
deriving DecidableEq

/-- The `for event in events` loop of `handle_replay_events` (lines 122-124):
process each event in order, and after each one re-query the store for its
latest event and overwrite the watermark. -/
def handle_loop (s : ClientState) : List SerializedMsg → ClientState × List Effect
  | [] => (s, [])
  | ev :: rest =>
      let fx := process_replay_msg ev
      let s1 := { s with last_event_date := s.store.find_latest_energy_usage }
      let r := handle_loop s1 rest
      (r.1, fx ++ r.2)

/-- `handle_replay_events` (lines 117-124): a `None` batch is a no-op,
otherwise the per-event loop runs. -/
def handle_replay_events (s : ClientState) (events : Option (List SerializedMsg)) :
    ClientState × List Effect :=
  match events with
  | none => (s, [])
  | some evs => handle_loop s evs

/-- How one run of the dispatch worker `_send_replay_request` ends.
`success response` is a completed exchange (`recv_json` may return null, hence
the `Option`); `again` is `zmq.error.Again` (receive timeout / resource
temporarily unavailable); `raiseAt k` is any other exception raised by the
k-th statement of the `try` block, counting from 0 (0 is the socket-creation
statement `self.remote_replay_socket = self.context.socket(zmq.REQ)`, so for
`raiseAt 0` the assignment has not happened). -/
inductive WorkerOutcome where
  | success (response : Option (List SerializedMsg))
  | again
  | raiseAt (k : Nat)
deriving DecidableEq

/-- The value of `self.remote_replay_socket` when control reaches the
`finally` block: a fresh socket handle unless the socket-creation statement
itself raised, in which case the attribute keeps its previous value. -/
def socket_after_try (s : ClientState) (o : WorkerOutcome) : Option Unit :=
  match o with
  | .raiseAt 0 => s.remote_replay_socket
  | _ => some ()

/-- What one worker run leaves behind: the client state, the effect trace
(logs/sleeps), whether `close()` on the socket completed, and whether an
exception propagated out of the worker. -/
structure WorkerResult where
  state : ClientState
  effects : List Effect
  socket_closed : Bool
  raised : Bool
deriving DecidableEq

/-- The dispatch worker `_send_replay_request` (lines 87-106). The `try` body
runs the exchange; `except zmq.error.Again` logs a warning and sleeps 5;
the `finally` block executes `self.remote_replay_socket.close()` and then
clears `request_in_progress`. Python semantics of that `finally`: when the
stored socket attribute is `None` (only possible when the socket-creation
statement raised and no earlier run assigned one), `close()` itself raises
`AttributeError`, so the flag assignment after it never executes. -/
def send_replay_request_worker (s : ClientState) (o : WorkerOutcome) : WorkerResult :=
  let sock := socket_after_try s o
  let body : ClientState × List Effect × Bool :=
    match o with
    | .success response =>
        let r := handle_replay_events s response
        (r.1, r.2, false)
    | .again => (s, [.log_warning, .sleep 5], false)
    | .raiseAt _ => (s, [], true)
  match sock with
  | none =>
      { state := { body.1 with remote_replay_socket := none },
        effects := body.2.1, socket_closed := false, raised := true }
  | some _ =>
      let s1 := { body.1 with request_in_progress := false, remote_replay_socket := sock }
      { state := s1, effects := body.2.1, socket_closed := true, raised := body.2.2 }

/-- The dispatch step of `send_replay_request` (lines 77-85): build the
request from the current watermark, then under `send_replay_lock` set
`request_in_progress := true` and start the worker thread. -/
def send_replay_request (s : ClientState) : ReplayRequest × ClientState :=
  (buildRequest s.last_event_date, { s with request_in_progress := true })

/-- Primitive statements of the dispatch path, for tracking which flag writes
happen while `send_replay_lock` is held. -/
inductive Stmt where
  | acquire_lock
  | release_lock
  | set_flag (v : Bool)
  | spawn_worker
  | create_socket
  | set_sockopt
  | connect_socket
  | send_request
  | recv_response
  | handle_events
  | log_warning
  | sleep (n : Nat)
  | close_socket
deriving DecidableEq

/-- The statements of `send_replay_request`'s lock block (lines 83-85):
`with self.send_replay_lock:` acquires, the flag is set true, the worker
thread is started, and leaving the block releases. -/
def send_replay_request_stmts : List Stmt :=
  [.acquire_lock, .set_flag true, .spawn_worker, .release_lock]

/-- The statements of the worker's `try` block (lines 89-99) that a run with
the given outcome executes, including the `except` handler when it applies:
socket creation, two `setsockopt` calls, connect, send, receive, and either
the apply path or the warning-and-backoff handler; a `raiseAt k` run stops
after the first k statements. -/
def worker_try_stmts (o : WorkerOutcome) : List Stmt :=
  match o with
  | .success _ =>
      [.create_socket, .set_sockopt, .set_sockopt, .connect_socket,
       .send_request, .recv_response, .handle_events]
  | .again =>
      [.create_socket, .set_sockopt, .set_sockopt, .connect_socket,
       .send_request, .recv_response, .log_warning, .sleep 5]
  | .raiseAt k =>
      ([.create_socket, .set_sockopt, .set_sockopt, .connect_socket,
        .send_request, .recv_response, .handle_events]).take k

/-- The statements of the worker's `finally` block (lines 104-106): the close,
then — only when the close did not raise, i.e. a socket handle is present —
the flag clear. No lock is acquired here. -/
def worker_finally_stmts (handle_present : Bool) : List Stmt :=
  if handle_present then [.close_socket, .set_flag false] else [.close_socket]

/-- All statements one worker run executes. -/
def worker_stmts (o : WorkerOutcome) (handle_present : Bool) : List Stmt :=
  worker_try_stmts o ++ worker_finally_stmts handle_present

/-- The writes to `request_in_progress` in a statement list, each paired with
whether `send_replay_lock` is held at that point; the accumulator is the
current lock depth. -/
def flag_writes : List Stmt → Nat → List (Bool × Bool)
  | [], _ => []
  | .acquire_lock :: rest, d => flag_writes rest (d + 1)
  | .release_lock :: rest, d => flag_writes rest (d - 1)
  | .set_flag v :: rest, d => (v, d != 0) :: flag_writes rest d
  | _ :: rest, d => flag_writes rest d

/-- The concurrency-relevant state of the client process: the
`request_in_progress` flag, the count of dispatch workers that have been
spawned and have not yet finished, and whether the (single-threaded) request
loop is between its flag check and the lock-guarded dispatch. -/
structure LoopState where
  request_in_progress : Bool
  active_workers : Nat
  dispatching : Bool
deriving DecidableEq

/-- The state in which `start_replay_request_loop` begins: flag false
(set in `__init__`), no worker, loop idle. -/
def initLoopState : LoopState :=
  { request_in_progress := false, active_workers := 0, dispatching := false }

/-- Interleaved small steps of `start_replay_request_loop` (lines 71-75) and
the dispatch workers it spawns. `tick_idle`: the loop reads the flag (outside
any lock) and finds it false, committing to dispatch. `tick_busy`: the flag is
true, the tick is a no-op. `dispatch`: the lock-guarded block of
`send_replay_request` sets the flag and spawns a worker atomically.
`finish`: a worker's `finally` clears the flag as its last action and the
worker stops counting as active. `finish_raise`: a worker whose `finally`
itself raised (see `send_replay_request_worker`) terminates without touching
the flag. -/
inductive LoopStep : LoopState → LoopState → Prop where
  | tick_idle (s : LoopState) :
      s.dispatching = false → s.request_in_progress = false →
      LoopStep s { s with dispatching := true }
  | tick_busy (s : LoopState) :
      s.dispatching = false → s.request_in_progress = true →
      LoopStep s s
  | dispatch (s : LoopState) :
      s.dispatching = true →
      LoopStep s { request_in_progress := true, active_workers := s.active_workers + 1,
                   dispatching := false }
  | finish (s : LoopState) :
      0 < s.active_workers →
      LoopStep s { s with request_in_progress := false, active_workers := s.active_workers - 1 }
  | finish_raise (s : LoopState) :
      0 < s.active_workers →
      LoopStep s { s with active_workers := s.active_workers - 1 }

/-- States the client process can reach from the start of the request loop. -/
inductive LoopReachable : LoopState → Prop where
  | init : LoopReachable initLoopState
  | step {s t : LoopState} : LoopReachable s → LoopStep s t → LoopReachable t

/-- Python errors relevant to constructing a `ReplayBroker`. -/
inductive PyError where
  | typeError
  | attributeError
deriving DecidableEq

/-- A constructed Python object, as the set of attribute names assigned so far. -/
structure PyObject where
  fields : List String
deriving DecidableEq

/-- The attributes `Broker.__init__` assigns (broker.py lines 4-10):
`context`, `edge_sub_socket`, `server_pub_socket` — and nothing else; in
particular no `repository`. -/
def brokerFields : List String :=
  ["context", "edge_sub_socket", "server_pub_socket"]

/-- `Broker.__init__` (broker.py lines 4-10) under Python call semantics: it
accepts no arguments besides `self`, so a positional call with any arguments
raises `TypeError`; otherwise it assigns `brokerFields`. -/
def brokerInit (args : List String) : Except PyError PyObject :=
  if args.length = 0 then .ok { fields := brokerFields }
  else .error .typeError

/-- `ReplayBroker.__init__` (lines 16-38): it first calls
`super().__init__(sub_socket, pub_socket, db_url)` with three positional
arguments; only if that returns does it go on to read `self.repository`
(never assigned by `Broker.__init__`, hence `AttributeError`) and assign the
replay state attributes. -/
def replayBrokerInit (sub_socket pub_socket db_url : String) :
    Except PyError PyObject := do
  let base ← brokerInit [sub_socket, pub_socket, db_url]
  if "repository" ∈ base.fields then
    .ok { fields := base.fields ++
      ["local_replay_socket", "last_event_date", "remote_replay_socket",
       "request_in_progress", "send_replay_lock", "first_event_date",
       "data_poll_thread"] }
  else .error .attributeError

/-- Order on watermarks: `none` (no history observed) is below everything,
and events compare by arrival time. -/
def watermark_le (a b : Option Event) : Bool :=
  match a, b with
  | none, _ => true
  | some _, none => false
  | some x, some y => decide (x.arrival_time ≤ y.arrival_time)

/-! Helper lemmas about the apply path. -/

lemma handle_loop_store (evs : List SerializedMsg) (s : ClientState) :
    (handle_loop s evs).1.store = s.store := by
  induction evs generalizing s with
  | nil => rfl
  | cons ev rest ih =>
      simp only [handle_loop]
      exact ih _

lemma handle_loop_flag (evs : List SerializedMsg) (s : ClientState) :
    (handle_loop s evs).1.request_in_progress = s.request_in_progress := by
  induction evs generalizing s with
  | nil => rfl
  | cons ev rest ih =>
      simp only [handle_loop]
      exact ih _

lemma handle_loop_socket (evs : List SerializedMsg) (s : ClientState) :
    (handle_loop s evs).1.remote_replay_socket = s.remote_replay_socket := by
  induction evs generalizing s with
  | nil => rfl
  | cons ev rest ih =>
      simp only [handle_loop]
      exact ih _

lemma handle_loop_effects (evs : List SerializedMsg) (s : ClientState) :
    (handle_loop s evs).2 = evs.flatMap process_replay_msg := by
  induction evs generalizing s with
  | nil => rfl
  | cons ev rest ih =>
      simp only [handle_loop, List.flatMap_cons]
      rw [ih]

lemma handle_loop_last (evs : List SerializedMsg) (s : ClientState) (h : evs ≠ []) :
    (handle_loop s evs).1.last_event_date = s.store.find_latest_energy_usage := by
  induction evs generalizing s with
  | nil => exact absurd rfl h
  | cons ev rest ih =>
      simp only [handle_loop]
      cases rest with
      | nil => rfl
      | cons ev2 rest2 =>
          rw [ih _ (by simp)]

/-! Helper lemmas about the request-loop transition system. -/

/-- The inductive invariant of the dispatch discipline: at most one worker,
none when the flag is false, and the loop only commits to dispatch while the
flag is false. -/
def LoopInv (s : LoopState) : Prop :=
  s.active_workers ≤ 1 ∧ (s.request_in_progress = false → s.active_workers = 0) ∧
    (s.dispatching = true → s.request_in_progress = false)

lemma loop_inv_step {s t : LoopState} (hs : LoopInv s) (h : LoopStep s t) : LoopInv t := by
  obtain ⟨h1, h2, h3⟩ := hs
  cases h with
  | tick_idle hd hf =>
      exact ⟨h1, fun _ => h2 hf, fun _ => hf⟩
  | tick_busy hd hf =>
      exact ⟨h1, h2, h3⟩
  | dispatch hd =>
      have hw : s.active_workers = 0 := h2 (h3 hd)
      refine ⟨?_, ?_, ?_⟩
      · show s.active_workers + 1 ≤ 1
        omega
      · intro hc
        simp at hc
      · intro hc
        simp at hc
  | finish hw =>
      refine ⟨?_, ?_, ?_⟩
      · show s.active_workers - 1 ≤ 1
        omega
      · intro _
        show s.active_workers - 1 = 0
        omega
      · intro _
        rfl
  | finish_raise hw =>
      refine ⟨?_, ?_, ?_⟩
      · show s.active_workers - 1 ≤ 1
        omega
      · intro hf
        have := h2 hf
        show s.active_workers - 1 = 0
        omega
      · exact h3

lemma loop_inv_reachable {s : LoopState} (h : LoopReachable s) : LoopInv s := by
  induction h with
  | init => exact ⟨by simp [initLoopState], fun _ => rfl, fun hc => by simp [initLoopState]⟩
  | step _ hstep ih => exact loop_inv_step ih hstep

/-- C1 counterexample: an execution of the dispatch worker exists that does
not clear `request_in_progress`: on the first dispatch (stored socket handle
still `None` from `__init__`), an exception in the socket-creation statement
reaches the `finally`, whose `self.remote_replay_socket.close()` itself raises
before the flag assignment, leaving the flag true and the worker terminated. -/
theorem worker_creation_failure_leaves_flag_set :
    (send_replay_request_worker ⟨none, true, none, ⟨[]⟩⟩
      (.raiseAt 0)).state.request_in_progress = true ∧
    (send_replay_request_worker ⟨none, true, none, ⟨[]⟩⟩ (.raiseAt 0)).socket_closed = false ∧
    (send_replay_request_worker ⟨none, true, none, ⟨[]⟩⟩ (.raiseAt 0)).raised = true := by
  decide

/-- C1 (amended): every run of the dispatch worker in which a connection
handle is present when the `finally` runs — every successful run, every
timeout, and every exception raised after the socket-creation statement —
closes the connection and clears `request_in_progress` before terminating;
only a socket-creation failure with no previously stored handle escapes the
`finally` with the flag still true. -/
theorem worker_clears_flag (s : ClientState) (o : WorkerOutcome)
    (h : socket_after_try s o ≠ none) :
    (send_replay_request_worker s o).state.request_in_progress = false ∧
    (send_replay_request_worker s o).socket_closed = true := by
  obtain ⟨u, hu⟩ := Option.ne_none_iff_exists'.mp h
  simp [send_replay_request_worker, hu]

/-- C1 witness: the amended theorem applied to a timeout run from the initial
client state. -/
theorem worker_clears_flag_witness :
    socket_after_try ⟨none, true, none, ⟨[]⟩⟩ .again ≠ none ∧
    ((send_replay_request_worker ⟨none, true, none, ⟨[]⟩⟩
        .again).state.request_in_progress = false ∧
      (send_replay_request_worker ⟨none, true, none, ⟨[]⟩⟩ .again).socket_closed = true) :=
  ⟨by decide, worker_clears_flag _ _ (by decide)⟩

/-- C2: in every state the client process can reach — ticks of
`start_replay_request_loop` interleaved with worker completions — at most one
dispatch worker is active: a tick dispatches only when `request_in_progress`
is false, the flag is set true in the same lock-guarded step that spawns the
worker, and no second worker is spawned while the flag is true. -/
theorem at_most_one_active_worker (s : LoopState) (h : LoopReachable s) :
    s.active_workers ≤ 1 :=
  (loop_inv_reachable h).1

/-- C2 witness: the state reached by one idle tick followed by its dispatch
has one active worker, within the bound. -/
theorem at_most_one_active_worker_witness :
    LoopReachable { request_in_progress := true, active_workers := 1, dispatching := false } ∧
    LoopState.active_workers
      { request_in_progress := true, active_workers := 1, dispatching := false } ≤ 1 := by
  have h1 : LoopReachable { request_in_progress := false, active_workers := 0, dispatching := true } :=
    LoopReachable.step LoopReachable.init (LoopStep.tick_idle initLoopState rfl rfl)
  have h2 : LoopReachable { request_in_progress := true, active_workers := 1, dispatching := false } :=
    LoopReachable.step h1 (LoopStep.dispatch _ rfl)
  exact ⟨h2, at_most_one_active_worker _ h2⟩

/-- C3: the code evaluated at the failing input — a batch holding one
energy-usage event, empty store — does not persist the event (the insert call
is commented out): the store stays empty, the event is only logged, and the
recomputed watermark stays `none` instead of advancing. -/
theorem energy_event_not_persisted :
    (handle_replay_events ⟨none, true, none, ⟨[]⟩⟩
      (some [serialize_msg ⟨"energy_usage", 10⟩])).1.store.events = [] ∧
    (handle_replay_events ⟨none, true, none, ⟨[]⟩⟩
      (some [serialize_msg ⟨"energy_usage", 10⟩])).2 =
        [.log_energy ⟨"energy_usage", 10⟩] ∧
    (handle_replay_events ⟨none, true, none, ⟨[]⟩⟩
      (some [serialize_msg ⟨"energy_usage", 10⟩])).1.last_event_date = none := by
  decide

/-- C4: for every decoded non-empty request, a `replay_by_timestamp` request
is answered from the store query for events after the deserialized
watermark's arrival time — every returned event has a strictly later arrival
time and the reply preserves store order — and a `replay_all` request is
answered with every stored event; both replies are the serialized query
result in the store's natural return order. -/
theorem server_request_dispatch (store : Store) (led : SerializedMsg) :
    start_local_replay_server_step store (some (.replay_by_timestamp led)) =
      some ((store.find_energy_after_arrival_time
        (deserialize_msg led).arrival_time).map serialize_msg) ∧
    (store.find_energy_after_arrival_time (deserialize_msg led).arrival_time).all
      (fun e => e.name == "energy_usage" &&
        decide ((deserialize_msg led).arrival_time < e.arrival_time)) = true ∧
    List.Sublist
      (store.find_energy_after_arrival_time (deserialize_msg led).arrival_time)
      store.events ∧
    start_local_replay_server_step store (some .replay_all) =
      some (store.events.map serialize_msg) := by
  refine ⟨rfl, ?_, List.filter_sublist _, rfl⟩
  rw [List.all_eq_true]
  intro e he
  exact (List.mem_filter.mp he).2

/-- C5: the request built at dispatch is `replay_all` exactly when the
watermark is `none`, and for any non-null watermark it is
`replay_by_timestamp` carrying the serialized watermark — so every dispatch
before the watermark first becomes non-null sends `replay_all`, and every
dispatch after sends `replay_by_timestamp`. -/
theorem build_request_characterization :
    (∀ w : Option Event, buildRequest w = .replay_all ↔ w = none) ∧
    (∀ e : Event, buildRequest (some e) = .replay_by_timestamp (serialize_msg e)) := by
  constructor
  · intro w
    cases w with
    | none => simp [buildRequest]
    | some e => simp [buildRequest]
  · intro e
    rfl

/-- C6: a worker run ending in `zmq.error.Again` (receive timeout / upstream
unavailable) logs a warning, sleeps the fixed 5-unit backoff, leaves the
watermark and the store unchanged, clears `request_in_progress`, and lets no
exception escape — the failure is never escalated. -/
theorem timeout_backoff_retry (s : ClientState) :
    (send_replay_request_worker s .again).effects = [.log_warning, .sleep 5] ∧
    (send_replay_request_worker s .again).state.last_event_date = s.last_event_date ∧
    (send_replay_request_worker s .again).state.store = s.store ∧
    (send_replay_request_worker s .again).state.request_in_progress = false ∧
    (send_replay_request_worker s .again).raised = false :=
  ⟨rfl, rfl, rfl, rfl, rfl⟩

/-- C7 counterexample: the worker's `finally` block performs a write of
`request_in_progress` (to false) at lock depth 0 — `send_replay_lock` is not
held there, contradicting the claim that every mutation of the flag happens
under the lock. -/
theorem flag_clear_without_lock :
    flag_writes (worker_stmts .again true) 0 = [(false, false)] := by
  rfl

/-- C7 (amended): the transition of `request_in_progress` to true in
`send_replay_request` happens while `send_replay_lock` is held, but the
transition back to false in the worker's `finally` block happens with the
lock not held — every flag write in any worker run is outside the lock. -/
theorem flag_write_lock_discipline (o : WorkerOutcome) (hp : Bool) :
    flag_writes send_replay_request_stmts 0 = [(true, true)] ∧
    (flag_writes (worker_stmts o hp) 0).all (fun w => w.2 == false) = true := by
  refine ⟨rfl, ?_⟩
  cases o with
  | success r => cases hp <;> rfl
  | again => cases hp <;> rfl
  | raiseAt k =>
      rcases k with _ | _ | _ | _ | _ | _ | _ | k
      all_goals cases hp
      all_goals first
        | rfl
        | (rw [worker_stmts, worker_try_stmts, List.take_of_length_le (by simp)]; rfl)

/-- C8: given that the store's latest-event query dominates the watermark the
client holds (monotone consistency with insert order), applying any non-empty
batch leaves the watermark greater than or equal to the watermark held before
the batch. -/
theorem watermark_monotone (s : ClientState) (evs : List SerializedMsg)
    (hne : evs ≠ [])
    (hmono : watermark_le s.last_event_date s.store.find_latest_energy_usage = true) :
    watermark_le s.last_event_date
      (handle_replay_events s (some evs)).1.last_event_date = true := by
  have h : (handle_replay_events s (some evs)).1.last_event_date
      = s.store.find_latest_energy_usage := handle_loop_last evs s hne
  rw [h]
  exact hmono

/-- C8 witness: the theorem applied to a store holding arrival times 3 and 7
with the client's watermark at 3. -/
theorem watermark_monotone_witness :
    ([serialize_msg ⟨"energy_usage", 7⟩] ≠ ([] : List SerializedMsg)) ∧
    watermark_le (some ⟨"energy_usage", 3⟩)
      (Store.find_latest_energy_usage
        ⟨[⟨"energy_usage", 3⟩, ⟨"energy_usage", 7⟩]⟩) = true ∧
    watermark_le (some ⟨"energy_usage", 3⟩)
      (handle_replay_events
        ⟨some ⟨"energy_usage", 3⟩, true, none,
          ⟨[⟨"energy_usage", 3⟩, ⟨"energy_usage", 7⟩]⟩⟩
        (some [serialize_msg ⟨"energy_usage", 7⟩])).1.last_event_date = true :=
  ⟨by decide, by decide,
    watermark_monotone
      ⟨some ⟨"energy_usage", 3⟩, true, none,
        ⟨[⟨"energy_usage", 3⟩, ⟨"energy_usage", 7⟩]⟩⟩
      [serialize_msg ⟨"energy_usage", 7⟩] (by decide) (by decide)⟩

/-- C9: constructing a `ReplayBroker` always raises `TypeError`:
`ReplayBroker.__init__` passes three positional arguments to
`Broker.__init__`, which accepts none besides `self`, so the error occurs
before any replay state is assigned — and `Broker.__init__` never assigns a
`repository` attribute either. -/
theorem replay_broker_init_raises_type_error :
    (∀ sub_socket pub_socket db_url : String,
      replayBrokerInit sub_socket pub_socket db_url = .error .typeError) ∧
    "repository" ∉ brokerFields := by
  exact ⟨fun _ _ _ => rfl, by decide⟩

/-- C10: for every batch, `handle_replay_events` leaves the store, the flag
and the socket handle untouched — the watermark `last_event_date` is the only
client state it may change — and its effect trace is exactly the per-event
log/print dispatch of `process_replay_msg` in batch order: no store write for
any event kind. -/
theorem handle_events_frame (s : ClientState) (events : Option (List SerializedMsg)) :
    (handle_replay_events s events).1.store = s.store ∧
    (handle_replay_events s events).1.request_in_progress = s.request_in_progress ∧
    (handle_replay_events s events).1.remote_replay_socket = s.remote_replay_socket ∧
    (handle_replay_events s events).2 = (events.getD []).flatMap process_replay_msg := by
  cases events with
  | none => exact ⟨rfl, rfl, rfl, rfl⟩
  | some evs =>
      exact ⟨handle_loop_store evs s, handle_loop_flag evs s, handle_loop_socket evs s,
        handle_loop_effects evs s⟩

end ReplayBroker
